import Mathlib

/-!
# Object finder action server (Part_3/object_finder/src/object_finder_as.cpp)

A shallow embedding of the class ObjectFinder and of its execute callback.

Conventions of the embedding.

* A C++ float or double is a value of the type Scalar: a rational, an infinity
  or NaN.  Literals are doubles, and the operators + and * are the double
  operations, rounded to nearest (ties to even); a float operand is promoted
  without change.  The conversion of a double to float is Scalar.toFloat; it is
  applied where the source stores or returns a computed double as a float
  (lines 75 and 110).  On line 152 the stored double is the value of a library
  function whose declaration is not part of the source file, and the conversion
  is taken as the identity.
* The external library object pclUtils_ has an abstract state of type σ; every
  one of its methods is a field of the structure Extern and is threaded
  through that state explicitly.  The Eigen operations (cross product,
  conversion of a rotation matrix to a quaternion) and ros::spinOnce are
  external as well.
* Every call expression of the source on pclUtils_, on object_finder_as_ and
  on the methods of ObjectFinder itself is recorded, in program order, in the
  field calls of the object state.
* The constants of the generated action header (COKE_CAN_UPRIGHT, TOY_BLOCK,
  OBJECT_FOUND, OBJECT_CODE_NOT_RECOGNIZED) are parameters.
-/

namespace ObjectFinder

/-! ## Scalars -/

/-- A value of a C++ float or double: the real number it denotes (a rational),
an infinity, or NaN.  The two zeros are identified. -/
inductive Scalar where
  | finite (x : ℚ)
  | inf (negative : Bool)
  | nan
  deriving DecidableEq

/-- The power 2^e as a rational. -/
def pow2 (e : Int) : ℚ :=
  if 0 ≤ e then ((2 ^ e.toNat : Nat) : ℚ) else 1 / ((2 ^ (-e).toNat : Nat) : ℚ)

/-- The number of halvings that bring n below 2, at most fuel of them. -/
def log2Fuel : Nat → Nat → Nat
  | 0, _ => 0
  | fuel + 1, n => if n < 2 then 0 else log2Fuel fuel (n / 2) + 1

/-- The floor of the binary logarithm of a positive natural number. -/
def natLog2 (n : Nat) : Nat := log2Fuel n n

/-- The floor of the binary logarithm of |q|, for q ≠ 0: the quotient of the
numerator by the denominator lies between 2^(e0 - 1) and 2^(e0 + 1), where e0
is the difference of their logarithms. -/
def ilog2 (q : ℚ) : Int :=
  let e0 : Int := (natLog2 q.num.natAbs : Int) - (natLog2 q.den : Int)
  if pow2 e0 ≤ |q| then e0 else e0 - 1

/-- Rounding of a rational to the nearest integer, ties to the even one. -/
def roundHalfEven (x : ℚ) : Int :=
  let f := ⌊x⌋
  let d := x - f
  if d < 1 / 2 then f else if 1 / 2 < d then f + 1 else if f % 2 = 0 then f else f + 1

/-- IEEE 754 rounding to nearest, ties to even, of a rational to the binary
format with p significant bits and exponents emin .. emax: the result is a
multiple of the unit in the last place of the binade of q (of the subnormal
unit below 2^emin), and a result of magnitude 2^(emax + 1) or more is an
infinity. -/
def roundTo (p : Nat) (emin emax : Int) (q : ℚ) : Scalar :=
  if q = 0 then Scalar.finite 0 else
  let e := max (ilog2 q) emin
  let u := pow2 (e - (p - 1))
  let r := (roundHalfEven (q / u) : ℚ) * u
  if pow2 (emax + 1) ≤ |r| then Scalar.inf (decide (q < 0)) else Scalar.finite r

/-- Rounding to a double (binary64). -/
def round64 (q : ℚ) : Scalar := roundTo 53 (-1022) 1023 q

/-- Rounding to a float (binary32). -/
def round32 (q : ℚ) : Scalar := roundTo 24 (-126) 127 q

/-- The conversion of a double to float. -/
def Scalar.toFloat : Scalar → Scalar
  | Scalar.finite x => round32 x
  | Scalar.inf s => Scalar.inf s
  | Scalar.nan => Scalar.nan

/-- Negation. -/
def Scalar.neg : Scalar → Scalar
  | Scalar.finite x => Scalar.finite (-x)
  | Scalar.inf s => Scalar.inf (!s)
  | Scalar.nan => Scalar.nan

/-- Addition of doubles. -/
def Scalar.add : Scalar → Scalar → Scalar
  | Scalar.finite a, Scalar.finite b => round64 (a + b)
  | Scalar.finite _, Scalar.inf s => Scalar.inf s
  | Scalar.inf s, Scalar.finite _ => Scalar.inf s
  | Scalar.inf s, Scalar.inf t => if s = t then Scalar.inf s else Scalar.nan
  | _, _ => Scalar.nan

/-- Multiplication of doubles. -/
def Scalar.mul : Scalar → Scalar → Scalar
  | Scalar.finite a, Scalar.finite b => round64 (a * b)
  | Scalar.finite a, Scalar.inf s =>
    if a = 0 then Scalar.nan else Scalar.inf (xor s (decide (a < 0)))
  | Scalar.inf s, Scalar.finite b =>
    if b = 0 then Scalar.nan else Scalar.inf (xor s (decide (b < 0)))
  | Scalar.inf s, Scalar.inf t => Scalar.inf (xor s t)
  | _, _ => Scalar.nan

/-- The comparison a < b of C++: false when an operand is NaN. -/
def Scalar.lt : Scalar → Scalar → Bool
  | Scalar.finite a, Scalar.finite b => decide (a < b)
  | Scalar.finite _, Scalar.inf s => !s
  | Scalar.inf s, Scalar.finite _ => s
  | Scalar.inf s, Scalar.inf t => s && !t
  | _, _ => false

/-- The comparison a <= b of C++: false when an operand is NaN. -/
def Scalar.le : Scalar → Scalar → Bool
  | Scalar.finite a, Scalar.finite b => decide (a ≤ b)
  | Scalar.finite _, Scalar.inf s => !s
  | Scalar.inf s, Scalar.finite _ => s
  | Scalar.inf s, Scalar.inf t => s || !t
  | _, _ => false

instance (n : Nat) : OfNat Scalar n := ⟨round64 n⟩

instance : OfScientific Scalar := ⟨fun m s e => round64 (Rat.ofScientific m s e)⟩

instance : Neg Scalar := ⟨Scalar.neg⟩

instance : Add Scalar := ⟨Scalar.add⟩

instance : Mul Scalar := ⟨Scalar.mul⟩

instance : LT Scalar := ⟨fun a b => Scalar.lt a b = true⟩

instance : LE Scalar := ⟨fun a b => Scalar.le a b = true⟩

instance (a b : Scalar) : Decidable (a < b) :=
  inferInstanceAs (Decidable (Scalar.lt a b = true))

instance (a b : Scalar) : Decidable (a ≤ b) :=
  inferInstanceAs (Decidable (Scalar.le a b = true))

/-! ## Messages -/

/-- The message geometry_msgs::Point. -/
structure Point where
  x : Scalar
  y : Scalar
  z : Scalar
  deriving DecidableEq

/-- The message geometry_msgs::Quaternion. -/
structure Quaternion where
  x : Scalar
  y : Scalar
  z : Scalar
  w : Scalar
  deriving DecidableEq

/-- The message geometry_msgs::Pose. -/
structure Pose where
  position : Point
  orientation : Quaternion
  deriving DecidableEq

/-- The message std_msgs::Header. -/
structure Header where
  seq : Nat
  stamp : Nat
  frame_id : String
  deriving DecidableEq

/-- The message geometry_msgs::PoseStamped. -/
structure PoseStamped where
  header : Header
  pose : Pose
  deriving DecidableEq

/-- A default-constructed PoseStamped, as the local object_pose of executeCB:
all numbers zero, empty frame id. -/
def PoseStamped.init : PoseStamped :=
  ⟨⟨0, 0, ""⟩, ⟨⟨0, 0, 0⟩, ⟨0, 0, 0, 0⟩⟩⟩

/-- The goal message objectFinderGoal. -/
structure objectFinderGoal where
  object_id : Int
  known_surface_ht : Bool
  surface_ht : Scalar
  deriving DecidableEq

/-- The result message objectFinderResult. -/
structure objectFinderResult where
  found_object_code : Int
  object_pose : PoseStamped
  deriving DecidableEq

/-- The enumeration constants of the generated action header, which is not part
of the source file.  The two goal codes are labels of one switch statement, so
they are distinct. -/
structure ActionCodes where
  COKE_CAN_UPRIGHT : Int
  TOY_BLOCK : Int
  OBJECT_FOUND : Int
  OBJECT_CODE_NOT_RECOGNIZED : Int
  labels_distinct : COKE_CAN_UPRIGHT ≠ TOY_BLOCK

/-! ## Eigen values -/

/-- The type Eigen::Vector3f, entries indexed 0, 1, 2. -/
structure Vector3f where
  e0 : Scalar
  e1 : Scalar
  e2 : Scalar
  deriving DecidableEq

/-- The type Eigen::Matrix3f, stored by columns. -/
structure Matrix3f where
  col0 : Vector3f
  col1 : Vector3f
  col2 : Vector3f
  deriving DecidableEq

/-- The type Eigen::Affine3f: linear part and translation. -/
structure Affine3f where
  linear : Matrix3f
  translation : Vector3f
  deriving DecidableEq

/-- The four output arguments of PclUtils::find_plane_fit. -/
structure PlaneFit where
  plane_normal : Vector3f
  plane_dist : Scalar
  major_axis : Vector3f
  centroid : Vector3f
  deriving DecidableEq

/-! ## External behaviour and the call record -/

/-- One call expression of the source, with its arguments. -/
inductive Call where
  | reset_got_kinect_cloud
  | got_kinect_cloud
  | transform_kinect_cloud (A : Affine3f)
  | find_table_height3 (z_min z_max dz : Scalar)
  | find_table_height7 (x_min x_max y_min y_max z_min z_max dz_tol : Scalar)
  | find_plane_fit (x_min x_max y_min y_max z_min z_max dz_tol : Scalar)
  | find_coplanar_pts_z_height (plane_height z_eps : Scalar)
  | find_upright_coke_can (surface_height : Scalar)
  | find_toy_block (surface_height : Scalar)
  | setSucceeded (r : objectFinderResult)
  | setAborted (r : objectFinderResult)
  deriving DecidableEq

/-- The behaviour of the code outside the source file, over an abstract state σ
of the library object pclUtils_ (the point cloud it holds included). -/
structure Extern (σ : Type) where
  /-- The method PclUtils::reset_got_kinect_cloud. -/
  reset_got_kinect_cloud : σ → σ
  /-- The method PclUtils::got_kinect_cloud. -/
  got_kinect_cloud : σ → Bool
  /-- One round of ros::spinOnce followed by the 0.1 s sleep: subscriber
  callbacks may store a new cloud. -/
  spinOnce : σ → σ
  /-- The method PclUtils::transform_kinect_cloud. -/
  transform_kinect_cloud : σ → Affine3f → σ
  /-- The three-argument overload of PclUtils::find_table_height. -/
  find_table_height3 : σ → Scalar → Scalar → Scalar → Scalar × σ
  /-- The seven-argument overload of PclUtils::find_table_height. -/
  find_table_height7 : σ → Scalar → Scalar → Scalar → Scalar → Scalar → Scalar → Scalar → Scalar × σ
  /-- The method PclUtils::find_plane_fit; the four output arguments are the
  first component. -/
  find_plane_fit : σ → Scalar → Scalar → Scalar → Scalar → Scalar → Scalar → Scalar → PlaneFit × σ
  /-- The method PclUtils::find_coplanar_pts_z_height; the output vector
  indices is the first component. -/
  find_coplanar_pts_z_height : σ → Scalar → Scalar → List Int × σ
  /-- The cross product a.cross(b) of Eigen. -/
  cross : Vector3f → Vector3f → Vector3f
  /-- The constructor Eigen::Quaternionf(R) from a 3x3 matrix. -/
  quaternion_of_matrix : Matrix3f → Quaternion

/-- The members of class ObjectFinder that the methods read or write, and the
record of the calls made so far. -/
structure State (σ : Type) where
  result_ : objectFinderResult
  pclUtils_ : σ
  calls : List Call

/-- Record one call. -/
def State.log {σ : Type} (self : State σ) (c : Call) : State σ :=
  ⟨self.result_, self.pclUtils_, self.calls ++ [c]⟩

/-- ObjectFinder::find_upright_coke_can (lines 53-65): the output argument
object_pose is passed in and returned. -/
def find_upright_coke_can (surface_height : Scalar) (object_pose : PoseStamped) :
    Bool × PoseStamped :=
  let found_object := true
  let object_pose : PoseStamped :=
    ⟨⟨object_pose.header.seq, object_pose.header.stamp, "world"⟩, object_pose.pose⟩
  let object_pose : PoseStamped :=
    ⟨object_pose.header,
      ⟨⟨0.680, object_pose.pose.position.y, object_pose.pose.position.z⟩,
        object_pose.pose.orientation⟩⟩
  let object_pose : PoseStamped :=
    ⟨object_pose.header,
      ⟨⟨object_pose.pose.position.x, -0.205, object_pose.pose.position.z⟩,
        object_pose.pose.orientation⟩⟩
  let object_pose : PoseStamped :=
    ⟨object_pose.header,
      ⟨⟨object_pose.pose.position.x, object_pose.pose.position.y, surface_height⟩,
        object_pose.pose.orientation⟩⟩
  let object_pose : PoseStamped :=
    ⟨object_pose.header, ⟨object_pose.pose.position, ⟨0, 0, 0, 1⟩⟩⟩
  (found_object, object_pose)

/-- Line 75 of find_toy_block: when entry 2 of the fitted normal compares below
zero it is multiplied by the double -1.0 and stored back as a float.  For NaN
the comparison is false and the entry is left as it is. -/
def flip_normal (plane_normal : Vector3f) : Vector3f :=
  if plane_normal.e2 < 0 then
    ⟨plane_normal.e0, plane_normal.e1, (plane_normal.e2 * (-1.0)).toFloat⟩
  else plane_normal

/-- Lines 76-80 of find_toy_block: the matrix R, from the fitted normal as the
library returned it and the major axis. -/
def toy_block_R {σ : Type} (E : Extern σ) (plane_normal major_axis : Vector3f) : Matrix3f :=
  let plane_normal := flip_normal plane_normal
  let col0 := major_axis
  let col2 := plane_normal
  let col1 := E.cross plane_normal major_axis
  ⟨col0, col1, col2⟩

/-- ObjectFinder::find_toy_block (lines 67-93). -/
def find_toy_block {σ : Type} (E : Extern σ) (self : State σ) (surface_height : Scalar)
    (object_pose : PoseStamped) : Bool × PoseStamped × State σ :=
  let found_object := true
  let self := self.log
    (Call.find_plane_fit 0 1 (-0.5) 0.5 (surface_height + 0.045) (surface_height + 0.06) 0.001)
  let fit := E.find_plane_fit self.pclUtils_
    0 1 (-0.5) 0.5 (surface_height + 0.045) (surface_height + 0.06) 0.001
  let self : State σ := ⟨self.result_, fit.2, self.calls⟩
  let centroid := fit.1.centroid
  let R := toy_block_R E fit.1.plane_normal fit.1.major_axis
  let quat := E.quaternion_of_matrix R
  let object_pose : PoseStamped :=
    ⟨⟨object_pose.header.seq, object_pose.header.stamp, "base_link"⟩, object_pose.pose⟩
  let object_pose : PoseStamped :=
    ⟨object_pose.header, ⟨⟨centroid.e0, centroid.e1, centroid.e2⟩, object_pose.pose.orientation⟩⟩
  let object_pose : PoseStamped :=
    ⟨object_pose.header, ⟨object_pose.pose.position, ⟨quat.x, quat.y, quat.z, quat.w⟩⟩⟩
  (found_object, object_pose, self)

/-! ## Table height by sweeping (source lines 95-111) -/

/-- The local constant z_eps of find_table_height. -/
def z_eps : Scalar := 0.005

/-- Ways in which the model of executeCB ends without finishing the goal: the
snapshot loop used up its iteration budget, or a local variable was read before
any assignment. -/
inductive Fault where
  | no_snapshot
  | uninitialized_read
  deriving DecidableEq

/-- The while loop of lines 127-131: poll got_kinect_cloud, spin and sleep while
it is false.  The first argument bounds the number of executions of the loop
body; none means that the bound was reached with the flag still false. -/
def wait_for_snapshot {σ : Type} (E : Extern σ) : Nat → State σ → Option (State σ)
  | 0, self =>
    let self := self.log Call.got_kinect_cloud
    if E.got_kinect_cloud self.pclUtils_ then some self else none
  | fuel + 1, self =>
    let self := self.log Call.got_kinect_cloud
    if E.got_kinect_cloud self.pclUtils_ then some self
    else wait_for_snapshot E fuel ⟨self.result_, E.spinOnce self.pclUtils_, self.calls⟩

/-- Lines 116-153 of executeCB: the locals, the fresh snapshot, the transform of
the cloud and the choice of the surface height.  The local surface_height is
declared without initialiser (none) and holds a value once assigned. -/
def executeCB_surface {σ : Type} (E : Extern σ) (g_affine_kinect_wrt_base : Affine3f)
    (fuel : Nat) (self : State σ) (goal : objectFinderGoal) :
    Except Fault (Option Scalar × State σ) :=
  let known_surface_ht := goal.known_surface_ht
  let surface_height : Option Scalar := none
  let surface_height : Option Scalar :=
    if known_surface_ht then some goal.surface_ht else surface_height
  let self := self.log Call.reset_got_kinect_cloud
  let self : State σ :=
    ⟨self.result_, E.reset_got_kinect_cloud self.pclUtils_, self.calls⟩
  match wait_for_snapshot E fuel self with
  | none => Except.error Fault.no_snapshot
  | some self =>
    let self := self.log (Call.transform_kinect_cloud g_affine_kinect_wrt_base)
    let self : State σ :=
      ⟨self.result_, E.transform_kinect_cloud self.pclUtils_ g_affine_kinect_wrt_base,
        self.calls⟩
    if !known_surface_ht then
      let self := self.log (Call.find_table_height3 0.6 1.2 0.005)
      let r := E.find_table_height3 self.pclUtils_ 0.6 1.2 0.005
      let table_ht : Scalar := r.1
      let self : State σ := ⟨self.result_, r.2, self.calls⟩
      let self := self.log (Call.find_table_height7 0.0 1 (-0.5) 0.5 0.6 1.2 0.005)
      let r := E.find_table_height7 self.pclUtils_ 0.0 1 (-0.5) 0.5 0.6 1.2 0.005
      let table_ht : Scalar := r.1
      let self : State σ := ⟨self.result_, r.2, self.calls⟩
      let surface_height : Option Scalar := some table_ht
      Except.ok (surface_height, self)
    else Except.ok (surface_height, self)

/-- The switch statement of executeCB (lines 161-193), entered with the values
of the locals object_id, surface_height and object_pose. -/
def executeCB_switch {σ : Type} (C : ActionCodes) (E : Extern σ) (self : State σ)
    (object_id : Int) (surface_height : Option Scalar) (object_pose : PoseStamped) :
    Except Fault (State σ) :=
  if object_id = C.COKE_CAN_UPRIGHT then
    match surface_height with
    | none => Except.error Fault.uninitialized_read
    | some surface_height =>
      let self := self.log (Call.find_upright_coke_can surface_height)
      let r := find_upright_coke_can surface_height object_pose
      let found_object := r.1
      let object_pose := r.2
      if found_object then
        let self : State σ :=
          ⟨⟨C.OBJECT_FOUND, self.result_.object_pose⟩, self.pclUtils_, self.calls⟩
        let self : State σ :=
          ⟨⟨self.result_.found_object_code, object_pose⟩, self.pclUtils_, self.calls⟩
        Except.ok (self.log (Call.setSucceeded self.result_))
      else
        Except.ok (self.log (Call.setAborted self.result_))
  else if object_id = C.TOY_BLOCK then
    match surface_height with
    | none => Except.error Fault.uninitialized_read
    | some surface_height =>
      let self := self.log (Call.find_toy_block surface_height)
      let r := find_toy_block E self surface_height object_pose
      let found_object := r.1
      let object_pose := r.2.1
      let self := r.2.2
      if found_object then
        let self : State σ :=
          ⟨⟨C.OBJECT_FOUND, self.result_.object_pose⟩, self.pclUtils_, self.calls⟩
        let self : State σ :=
          ⟨⟨self.result_.found_object_code, object_pose⟩, self.pclUtils_, self.calls⟩
        Except.ok (self.log (Call.setSucceeded self.result_))
      else
        Except.ok (self.log (Call.setAborted self.result_))
  else
    let self : State σ :=
      ⟨⟨C.OBJECT_CODE_NOT_RECOGNIZED, self.result_.object_pose⟩, self.pclUtils_, self.calls⟩
    Except.ok (self.log (Call.setAborted self.result_))

/-- ObjectFinder::executeCB (lines 115-195).  The argument fuel bounds the number
of rounds of the snapshot loop.  The local found_object, initialised to false
on line 123, is overwritten by the return value of the detector before its only
read, so that it is bound inside the switch statement. -/
def executeCB {σ : Type} (C : ActionCodes) (E : Extern σ)
    (g_affine_kinect_wrt_base : Affine3f) (fuel : Nat) (self : State σ)
    (goal : objectFinderGoal) : Except Fault (State σ) :=
  let object_id := goal.object_id
  let object_pose : PoseStamped := PoseStamped.init
  match executeCB_surface E g_affine_kinect_wrt_base fuel self goal with
  | Except.error f => Except.error f
  | Except.ok (surface_height, self) =>
    executeCB_switch C E self object_id surface_height object_pose

/-! ## Vocabulary of the statements -/

/-- The calls recorded between two states of the object. -/
def State.newCalls {σ : Type} (before after : State σ) : List Call :=
  after.calls.drop before.calls.length

/-- The calls that finish a goal on the action server. -/
def Call.isTerminal : Call → Bool
  | Call.setSucceeded _ => true
  | Call.setAborted _ => true
  | _ => false

/-- The calls of the two detectors. -/
def Call.isDetector : Call → Bool
  | Call.find_upright_coke_can _ => true
  | Call.find_toy_block _ => true
  | _ => false

/-- The snapshot arrives at poll number n: after the reset, the flag
got_kinect_cloud is false at the polls 0 .. n-1 and true at poll n, with one
round of spinning between two polls. -/
def SnapshotAt {σ : Type} (E : Extern σ) (s : σ) (n : Nat) : Prop :=
  (∀ m, m < n → E.got_kinect_cloud (E.spinOnce^[m] (E.reset_got_kinect_cloud s)) = false) ∧
    E.got_kinect_cloud (E.spinOnce^[n] (E.reset_got_kinect_cloud s)) = true

/-- The state of pclUtils_ when the snapshot that arrived at poll n has been
transformed to base coordinates. -/
def cloud_ready {σ : Type} (E : Extern σ) (A : Affine3f) (s : σ) (n : Nat) : σ :=
  E.transform_kinect_cloud (E.spinOnce^[n] (E.reset_got_kinect_cloud s)) A

/-- A concrete library over the state "number of spin rounds since the reset":
the cloud arrives at the given poll, or never for none.  Its cloud has five
points, all at the height 1.2 as a float (1.2000000476837158); the slab at a
height holds the points whose distance to that height is below the tolerance. -/
def demoExtern (arrival : Option Nat) : Extern Nat where
  reset_got_kinect_cloud := fun _ => 0
  got_kinect_cloud := fun s =>
    match arrival with
    | none => false
    | some a => decide (a ≤ s)
  spinOnce := fun s => s + 1
  transform_kinect_cloud := fun s _ => s
  find_table_height3 := fun s _ _ _ => (0.8, s)
  find_table_height7 := fun s _ _ _ _ _ _ _ => (0.75, s)
  find_plane_fit := fun s _ _ _ _ z_min _ _ => (⟨⟨0, 0, -1⟩, 0, ⟨1, 0, 0⟩, ⟨0.5, 0, z_min⟩⟩, s)
  find_coplanar_pts_z_height := fun s plane_height z_eps =>
    (match plane_height, z_eps with
      | Scalar.finite h, Scalar.finite e =>
        if |5033165 / 4194304 - h| < e then [0, 1, 2, 3, 4] else []
      | _, _ => [], s)
  cross := fun _ _ => ⟨0, 1, 0⟩
  quaternion_of_matrix := fun _ => ⟨0, 0, 0, 1⟩

/-- The same library on a cloud with no point in the box of find_toy_block:
every output of the plane fit is NaN. -/
def emptyBoxExtern : Extern Nat where
  reset_got_kinect_cloud := (demoExtern none).reset_got_kinect_cloud
  got_kinect_cloud := (demoExtern none).got_kinect_cloud
  spinOnce := (demoExtern none).spinOnce
  transform_kinect_cloud := (demoExtern none).transform_kinect_cloud
  find_table_height3 := (demoExtern none).find_table_height3
  find_table_height7 := (demoExtern none).find_table_height7
  find_plane_fit := fun s _ _ _ _ _ _ _ =>
    (⟨⟨Scalar.nan, Scalar.nan, Scalar.nan⟩, Scalar.nan,
      ⟨Scalar.nan, Scalar.nan, Scalar.nan⟩, ⟨Scalar.nan, Scalar.nan, Scalar.nan⟩⟩, s)
  find_coplanar_pts_z_height := (demoExtern none).find_coplanar_pts_z_height
  cross := fun _ _ => ⟨Scalar.nan, Scalar.nan, Scalar.nan⟩
  quaternion_of_matrix := fun _ => ⟨Scalar.nan, Scalar.nan, Scalar.nan, Scalar.nan⟩

/-- Concrete action codes. -/
def demoCodes : ActionCodes := ⟨1, 2, 0, 1, by decide⟩

/-- The identity transform. -/
def demoAffine : Affine3f := ⟨⟨⟨1, 0, 0⟩, ⟨0, 1, 0⟩, ⟨0, 0, 1⟩⟩, ⟨0, 0, 0⟩⟩

/-- A freshly constructed object: default result, no calls yet. -/
def demoState : State Nat := ⟨⟨0, PoseStamped.init⟩, 0, []⟩

/-! ## The snapshot loop -/

/-- When the flag is false at the polls 0 .. n-1 and true at poll n, a budget of
at least n rounds lets the loop end after n rounds of spinning and n + 1 polls. -/
theorem wait_for_snapshot_arrives {σ : Type} (E : Extern σ) (n : Nat) :
    ∀ (fuel : Nat) (self : State σ),
      (∀ m, m < n → E.got_kinect_cloud (E.spinOnce^[m] self.pclUtils_) = false) →
      E.got_kinect_cloud (E.spinOnce^[n] self.pclUtils_) = true →
      n ≤ fuel →
      wait_for_snapshot E fuel self
        = some ⟨self.result_, E.spinOnce^[n] self.pclUtils_,
            self.calls ++ List.replicate (n + 1) Call.got_kinect_cloud⟩ := by
  induction n with
  | zero =>
    intro fuel self _ hgot _
    have hgot0 : E.got_kinect_cloud self.pclUtils_ = true := by simpa using hgot
    cases fuel <;> simp [wait_for_snapshot, State.log, hgot0]
  | succ n ih =>
    intro fuel self hfirst hgot hfuel
    obtain ⟨fuel, rfl⟩ : ∃ f, fuel = f + 1 := ⟨fuel - 1, by omega⟩
    have h0 : E.got_kinect_cloud self.pclUtils_ = false := by
      simpa using hfirst 0 (Nat.succ_pos n)
    have hstep := ih fuel ⟨self.result_, E.spinOnce self.pclUtils_,
        self.calls ++ [Call.got_kinect_cloud]⟩
      (fun m hm => by
        simpa [Function.iterate_succ_apply] using hfirst (m + 1) (Nat.succ_lt_succ hm))
      (by simpa [Function.iterate_succ_apply] using hgot)
      (by omega)
    simp only [wait_for_snapshot, State.log, h0, Bool.false_eq_true, if_false]
    rw [hstep]
    simp [Function.iterate_succ_apply, List.replicate_succ]

/-- A flag that never becomes true exhausts every budget. -/
theorem wait_for_snapshot_never {σ : Type} (E : Extern σ)
    (hnever : ∀ s, E.got_kinect_cloud s = false) :
    ∀ (fuel : Nat) (self : State σ), wait_for_snapshot E fuel self = none := by
  intro fuel
  induction fuel with
  | zero =>
    intro self
    simp [wait_for_snapshot, State.log, hnever]
  | succ fuel ih =>
    intro self
    simp [wait_for_snapshot, State.log, hnever, ih]

/-- The first part of executeCB once the snapshot has arrived: the selected
surface height, the state of pclUtils_ and the calls made. -/
theorem executeCB_surface_arrived {σ : Type} (E : Extern σ) (A : Affine3f)
    (fuel n : Nat) (self : State σ) (goal : objectFinderGoal)
    (hsnap : SnapshotAt E self.pclUtils_ n) (hfuel : n ≤ fuel) :
    executeCB_surface E A fuel self goal =
      if goal.known_surface_ht = true then
        Except.ok (some goal.surface_ht,
          ⟨self.result_, cloud_ready E A self.pclUtils_ n,
            self.calls ++ (Call.reset_got_kinect_cloud ::
              (List.replicate (n + 1) Call.got_kinect_cloud ++
                [Call.transform_kinect_cloud A]))⟩)
      else
        Except.ok (some (E.find_table_height7
              (E.find_table_height3 (cloud_ready E A self.pclUtils_ n) 0.6 1.2 0.005).2
              0.0 1 (-0.5) 0.5 0.6 1.2 0.005).1,
          ⟨self.result_,
            (E.find_table_height7
              (E.find_table_height3 (cloud_ready E A self.pclUtils_ n) 0.6 1.2 0.005).2
              0.0 1 (-0.5) 0.5 0.6 1.2 0.005).2,
            self.calls ++ (Call.reset_got_kinect_cloud ::
              (List.replicate (n + 1) Call.got_kinect_cloud ++
                [Call.transform_kinect_cloud A, Call.find_table_height3 0.6 1.2 0.005,
                  Call.find_table_height7 0.0 1 (-0.5) 0.5 0.6 1.2 0.005]))⟩) := by
  have hwait := wait_for_snapshot_arrives E n fuel
    ⟨self.result_, E.reset_got_kinect_cloud self.pclUtils_,
      self.calls ++ [Call.reset_got_kinect_cloud]⟩ hsnap.1 hsnap.2 hfuel
  unfold executeCB_surface
  simp only [State.log]
  rw [hwait]
  cases hk : goal.known_surface_ht <;> simp [cloud_ready]

/-! ## The detectors -/

/-- C4: for every surface height and every prior content of object_pose,
find_upright_coke_can returns true and leaves frame_id = "world",
position = (0.680, -0.205, surface_height), orientation = (0, 0, 0, 1). -/
theorem find_upright_coke_can_pose (surface_height : Scalar) (object_pose : PoseStamped) :
    (find_upright_coke_can surface_height object_pose).1 = true ∧
    (find_upright_coke_can surface_height object_pose).2.header.frame_id = "world" ∧
    (find_upright_coke_can surface_height object_pose).2.pose.position
      = ⟨0.680, -0.205, surface_height⟩ ∧
    (find_upright_coke_can surface_height object_pose).2.pose.orientation = ⟨0, 0, 0, 1⟩ :=
  ⟨rfl, rfl, rfl, rfl⟩

/-- C3, refuted as stated: two calls of find_upright_coke_can with the surface
heights 0 and 1 produce poses that differ (in position.z). -/
theorem find_upright_coke_can_not_constant :
    ¬ (∀ (h1 h2 : Scalar) (p1 p2 : PoseStamped),
        (find_upright_coke_can h1 p1).2.header.frame_id
            = (find_upright_coke_can h2 p2).2.header.frame_id ∧
        (find_upright_coke_can h1 p1).2.pose = (find_upright_coke_can h2 p2).2.pose) := by
  intro h
  have hz : (0 : Scalar) = 1 :=
    congrArg (fun p => p.position.z) (h 0 1 PoseStamped.init PoseStamped.init).2
  exact absurd hz (by decide!)

/-- C3, amended: for any two calls of find_upright_coke_can, whatever the
surface heights and the prior contents of the output argument, the frame id,
position x and y and the orientation agree; position z is the surface height
of the respective call, so the two poses agree exactly when the heights do. -/
theorem find_upright_coke_can_constant_up_to_z (h1 h2 : Scalar) (p1 p2 : PoseStamped) :
    (find_upright_coke_can h1 p1).2.header.frame_id
        = (find_upright_coke_can h2 p2).2.header.frame_id ∧
    (find_upright_coke_can h1 p1).2.pose.position.x
        = (find_upright_coke_can h2 p2).2.pose.position.x ∧
    (find_upright_coke_can h1 p1).2.pose.position.y
        = (find_upright_coke_can h2 p2).2.pose.position.y ∧
    (find_upright_coke_can h1 p1).2.pose.orientation
        = (find_upright_coke_can h2 p2).2.pose.orientation ∧
    (find_upright_coke_can h1 p1).2.pose.position.z = h1 ∧
    (find_upright_coke_can h2 p2).2.pose.position.z = h2 ∧
    ((find_upright_coke_can h1 p1).2.pose = (find_upright_coke_can h2 p2).2.pose ↔ h1 = h2) := by
  refine ⟨rfl, rfl, rfl, rfl, rfl, rfl, ?_⟩
  constructor
  · intro h
    exact congrArg (fun p => p.position.z) h
  · intro h
    subst h
    rfl

/-- C5: find_toy_block makes exactly one call, find_plane_fit with the box
x in [0, 1], y in [-0.5, 0.5], z in [surface_height + 0.045, surface_height + 0.06]
and tolerance 0.001, on the library state it was entered with; it returns true,
sets frame_id = "base_link" and the position to the centroid of that fit. -/
theorem find_toy_block_position {σ : Type} (E : Extern σ) (self : State σ)
    (surface_height : Scalar) (object_pose : PoseStamped) :
    (find_toy_block E self surface_height object_pose).1 = true ∧
    (find_toy_block E self surface_height object_pose).2.2.calls
      = self.calls ++ [Call.find_plane_fit 0 1 (-0.5) 0.5
          (surface_height + 0.045) (surface_height + 0.06) 0.001] ∧
    (find_toy_block E self surface_height object_pose).2.2.pclUtils_
      = (E.find_plane_fit self.pclUtils_ 0 1 (-0.5) 0.5
          (surface_height + 0.045) (surface_height + 0.06) 0.001).2 ∧
    (find_toy_block E self surface_height object_pose).2.1.header.frame_id = "base_link" ∧
    (find_toy_block E self surface_height object_pose).2.1.pose.position
      = ⟨(E.find_plane_fit self.pclUtils_ 0 1 (-0.5) 0.5
            (surface_height + 0.045) (surface_height + 0.06) 0.001).1.centroid.e0,
         (E.find_plane_fit self.pclUtils_ 0 1 (-0.5) 0.5
            (surface_height + 0.045) (surface_height + 0.06) 0.001).1.centroid.e1,
         (E.find_plane_fit self.pclUtils_ 0 1 (-0.5) 0.5
            (surface_height + 0.045) (surface_height + 0.06) 0.001).1.centroid.e2⟩ :=
  ⟨rfl, rfl, rfl, rfl, rfl⟩

/-! ## The normal of the toy block -/

/-- The literal 0 is the rational 0. -/
theorem Scalar.zero_eq : (0 : Scalar) = Scalar.finite 0 := by decide!

/-- The literal -1.0 is the rational -1. -/
theorem Scalar.neg_one_eq : (-1.0 : Scalar) = Scalar.finite (-1) := by decide!

/-- Powers of two are positive. -/
theorem pow2_pos (e : Int) : 0 < pow2 e := by
  unfold pow2
  split_ifs
  · exact_mod_cast Nat.pos_pow_of_pos _ (by decide)
  · apply div_pos one_pos
    exact_mod_cast Nat.pos_pow_of_pos _ (by decide)

/-- Rounding to an integer keeps a non-negative rational non-negative. -/
theorem roundHalfEven_nonneg (x : ℚ) (hx : 0 ≤ x) : 0 ≤ roundHalfEven x := by
  have hf : 0 ≤ ⌊x⌋ := Int.floor_nonneg.mpr hx
  unfold roundHalfEven
  simp only []
  split_ifs <;> omega

/-- Rounding to a binary format keeps a non-negative rational non-negative. -/
theorem roundTo_nonneg (p : Nat) (emin emax : Int) (q : ℚ) (hq : 0 ≤ q) :
    Scalar.le (Scalar.finite 0) (roundTo p emin emax q) = true := by
  unfold roundTo
  simp only []
  split_ifs with h0 hov
  · simp [Scalar.le]
  · have hnot : ¬ q < 0 := not_lt.mpr hq
    simp [Scalar.le, hnot]
  · have hu := pow2_pos (max (ilog2 q) emin - (p - 1))
    have hr : 0 ≤ roundHalfEven (q / pow2 (max (ilog2 q) emin - (p - 1))) :=
      roundHalfEven_nonneg _ (div_nonneg hq hu.le)
    have hrq : (0 : ℚ) ≤ (roundHalfEven (q / pow2 (max (ilog2 q) emin - (p - 1))) : ℚ) := by
      exact_mod_cast hr
    simp only [Scalar.le, decide_eq_true_eq]
    exact mul_nonneg hrq hu.le

/-- The conversion to float keeps a non-negative value non-negative. -/
theorem Scalar.toFloat_nonneg (a : Scalar) (ha : Scalar.le (Scalar.finite 0) a = true) :
    Scalar.le (Scalar.finite 0) a.toFloat = true := by
  cases a with
  | finite x =>
    have hx : 0 ≤ x := by simpa [Scalar.le] using ha
    exact roundTo_nonneg 24 (-126) 127 x hx
  | inf s => simpa [Scalar.toFloat] using ha
  | nan => simp [Scalar.le] at ha

/-- Line 75 on a fitted normal whose entry 2 is not NaN: the entry 2 of the
result is non-negative, and a normal with non-negative entry 2 is unchanged. -/
theorem flip_normal_up (plane_normal : Vector3f) (hnan : plane_normal.e2 ≠ Scalar.nan) :
    0 ≤ (flip_normal plane_normal).e2 ∧
    (0 ≤ plane_normal.e2 → flip_normal plane_normal = plane_normal) := by
  obtain ⟨e0, e1, e2⟩ := plane_normal
  simp only [] at hnan
  show Scalar.le 0 (flip_normal ⟨e0, e1, e2⟩).e2 = true ∧
    (Scalar.le 0 e2 = true → flip_normal ⟨e0, e1, e2⟩ = ⟨e0, e1, e2⟩)
  unfold flip_normal
  show Scalar.le 0 (if Scalar.lt e2 0 = true then
      (⟨e0, e1, (Scalar.mul e2 (-1.0)).toFloat⟩ : Vector3f) else ⟨e0, e1, e2⟩).e2 = true ∧
    (Scalar.le 0 e2 = true → (if Scalar.lt e2 0 = true then
      (⟨e0, e1, (Scalar.mul e2 (-1.0)).toFloat⟩ : Vector3f) else ⟨e0, e1, e2⟩) = ⟨e0, e1, e2⟩)
  rw [Scalar.zero_eq, Scalar.neg_one_eq]
  cases e2 with
  | finite x =>
    by_cases hx : x < 0
    · have hlt : Scalar.lt (Scalar.finite x) (Scalar.finite 0) = true := by
        simp [Scalar.lt, hx]
      rw [if_pos hlt]
      constructor
      · apply Scalar.toFloat_nonneg
        exact roundTo_nonneg 53 (-1022) 1023 (x * -1) (by linarith)
      · intro hle
        have : 0 ≤ x := by simpa [Scalar.le] using hle
        linarith
    · have hlt : ¬ Scalar.lt (Scalar.finite x) (Scalar.finite 0) = true := by
        simp [Scalar.lt, hx]
      rw [if_neg hlt]
      exact ⟨by simpa [Scalar.le] using hx, fun _ => rfl⟩
  | inf s =>
    cases s with
    | false => simp [Scalar.lt, Scalar.le]
    | true => simp [Scalar.lt, Scalar.le, Scalar.mul, Scalar.toFloat]
  | nan => exact absurd rfl hnan

/-- For every fitted normal whose entry 2 is not NaN, column 2 of the matrix R
of find_toy_block has a non-negative entry 2, and it is the fitted normal
whenever the entry 2 of the fitted normal is non-negative. -/
theorem toy_block_R_normal_up {σ : Type} (E : Extern σ) (plane_normal major_axis : Vector3f)
    (hnan : plane_normal.e2 ≠ Scalar.nan) :
    0 ≤ (toy_block_R E plane_normal major_axis).col2.e2 ∧
    (0 ≤ plane_normal.e2 → (toy_block_R E plane_normal major_axis).col2 = plane_normal) :=
  flip_normal_up plane_normal hnan

/-- C7, at the failing input: on a cloud with no point in the box the fitted
normal is (NaN, NaN, NaN); the test of line 75 is false for NaN, so column 2 of
the matrix R, whose quaternion find_toy_block writes into the pose, keeps the
entry 2 = NaN, which is not non-negative. -/
theorem find_toy_block_nan_normal :
    (emptyBoxExtern.find_plane_fit demoState.pclUtils_ 0 1 (-0.5) 0.5
        (0.8 + 0.045) (0.8 + 0.06) 0.001).1.plane_normal
      = ⟨Scalar.nan, Scalar.nan, Scalar.nan⟩ ∧
    (find_toy_block emptyBoxExtern demoState 0.8 PoseStamped.init).2.1.pose.orientation
      = emptyBoxExtern.quaternion_of_matrix
          (toy_block_R emptyBoxExtern ⟨Scalar.nan, Scalar.nan, Scalar.nan⟩
            ⟨Scalar.nan, Scalar.nan, Scalar.nan⟩) ∧
    (toy_block_R emptyBoxExtern ⟨Scalar.nan, Scalar.nan, Scalar.nan⟩
        ⟨Scalar.nan, Scalar.nan, Scalar.nan⟩).col2.e2 = Scalar.nan ∧
    ¬ (0 ≤ (toy_block_R emptyBoxExtern ⟨Scalar.nan, Scalar.nan, Scalar.nan⟩
        ⟨Scalar.nan, Scalar.nan, Scalar.nan⟩).col2.e2) := by
  refine ⟨rfl, rfl, rfl, ?_⟩
  decide

/-! ## The execute callback -/

/-- The calls recorded since a state whose record is a prefix. -/
theorem State.newCalls_append {σ : Type} (self : State σ) (r : objectFinderResult) (p : σ)
    (new : List Call) : State.newCalls self ⟨r, p, self.calls ++ new⟩ = new := by
  simp [State.newCalls]

/-- The switch statement on the label COKE_CAN_UPRIGHT. -/
theorem executeCB_switch_coke {σ : Type} (C : ActionCodes) (E : Extern σ) (mid : State σ)
    (object_id : Int) (h : Scalar) (pose : PoseStamped) (hid : object_id = C.COKE_CAN_UPRIGHT) :
    executeCB_switch C E mid object_id (some h) pose
      = Except.ok ⟨⟨C.OBJECT_FOUND, (find_upright_coke_can h pose).2⟩, mid.pclUtils_,
          mid.calls ++ [Call.find_upright_coke_can h,
            Call.setSucceeded ⟨C.OBJECT_FOUND, (find_upright_coke_can h pose).2⟩]⟩ := by
  simp only [executeCB_switch, if_pos hid]
  simp [State.log, find_upright_coke_can]

/-- The switch statement on the label TOY_BLOCK. -/
theorem executeCB_switch_toy {σ : Type} (C : ActionCodes) (E : Extern σ) (mid : State σ)
    (object_id : Int) (h : Scalar) (pose : PoseStamped) (hid : object_id = C.TOY_BLOCK) :
    executeCB_switch C E mid object_id (some h) pose
      = Except.ok ⟨⟨C.OBJECT_FOUND, (find_toy_block E mid h pose).2.1⟩,
          (E.find_plane_fit mid.pclUtils_ 0 1 (-0.5) 0.5 (h + 0.045) (h + 0.06) 0.001).2,
          mid.calls ++ [Call.find_toy_block h,
            Call.find_plane_fit 0 1 (-0.5) 0.5 (h + 0.045) (h + 0.06) 0.001,
            Call.setSucceeded ⟨C.OBJECT_FOUND, (find_toy_block E mid h pose).2.1⟩]⟩ := by
  have hne : ¬ object_id = C.COKE_CAN_UPRIGHT := by
    rw [hid]
    exact fun h => C.labels_distinct h.symm
  simp only [executeCB_switch, if_neg hne, if_pos hid]
  simp [State.log, find_toy_block]

/-- The switch statement on any other value: the default branch. -/
theorem executeCB_switch_default {σ : Type} (C : ActionCodes) (E : Extern σ) (mid : State σ)
    (object_id : Int) (surface_height : Option Scalar) (pose : PoseStamped)
    (hcoke : object_id ≠ C.COKE_CAN_UPRIGHT) (htoy : object_id ≠ C.TOY_BLOCK) :
    executeCB_switch C E mid object_id surface_height pose
      = Except.ok ⟨⟨C.OBJECT_CODE_NOT_RECOGNIZED, mid.result_.object_pose⟩, mid.pclUtils_,
          mid.calls ++
            [Call.setAborted ⟨C.OBJECT_CODE_NOT_RECOGNIZED, mid.result_.object_pose⟩]⟩ := by
  simp only [executeCB_switch, if_neg hcoke, if_neg htoy]
  simp [State.log]

/-- The first part of executeCB, once the snapshot has arrived, ends with an
assigned surface height, leaves result_ alone and makes no goal-finishing call
and no detector call. -/
theorem executeCB_surface_calls {σ : Type} (E : Extern σ) (A : Affine3f)
    (fuel n : Nat) (self : State σ) (goal : objectFinderGoal)
    (hsnap : SnapshotAt E self.pclUtils_ n) (hfuel : n ≤ fuel) :
    ∃ (h : Scalar) (mid : State σ) (new : List Call),
      executeCB_surface E A fuel self goal = Except.ok (some h, mid) ∧
      mid.result_ = self.result_ ∧
      mid.calls = self.calls ++ new ∧
      new.filter Call.isTerminal = [] ∧ new.filter Call.isDetector = [] := by
  have hs := executeCB_surface_arrived E A fuel n self goal hsnap hfuel
  cases hk : goal.known_surface_ht
  · simp only [hk, Bool.false_eq_true, if_false] at hs
    exact ⟨_, _, _, hs, rfl, rfl,
      by simp [List.filter_replicate, Call.isTerminal],
      by simp [List.filter_replicate, Call.isDetector]⟩
  · simp only [hk, if_true] at hs
    exact ⟨_, _, _, hs, rfl, rfl,
      by simp [List.filter_replicate, Call.isTerminal],
      by simp [List.filter_replicate, Call.isDetector]⟩

/-- C1: for a goal with object_id COKE_CAN_UPRIGHT or TOY_BLOCK, once the
snapshot has arrived (at poll n, within the budget), executeCB ends with
result_ = (OBJECT_FOUND, pose) and its only goal-finishing call is
setSucceeded with that result, where pose is what the matching detector fills
into a fresh PoseStamped for the selected surface height h, on the state mid
left by the first part of executeCB. -/
theorem executeCB_known_object_succeeds {σ : Type} (C : ActionCodes) (E : Extern σ)
    (A : Affine3f) (fuel n : Nat) (self : State σ) (goal : objectFinderGoal)
    (hid : goal.object_id = C.COKE_CAN_UPRIGHT ∨ goal.object_id = C.TOY_BLOCK)
    (hsnap : SnapshotAt E self.pclUtils_ n) (hfuel : n ≤ fuel) :
    ∃ (h : Scalar) (mid fin : State σ) (pose : PoseStamped),
      executeCB_surface E A fuel self goal = Except.ok (some h, mid) ∧
      executeCB C E A fuel self goal = Except.ok fin ∧
      pose = (if goal.object_id = C.COKE_CAN_UPRIGHT then
                (find_upright_coke_can h PoseStamped.init).2
              else (find_toy_block E mid h PoseStamped.init).2.1) ∧
      fin.result_ = ⟨C.OBJECT_FOUND, pose⟩ ∧
      (State.newCalls self fin).filter Call.isTerminal
        = [Call.setSucceeded ⟨C.OBJECT_FOUND, pose⟩] := by
  obtain ⟨h, mid, new, hs, -, hcalls, hterm, -⟩ :=
    executeCB_surface_calls E A fuel n self goal hsnap hfuel
  have hne := C.labels_distinct
  have hrun : executeCB C E A fuel self goal
      = executeCB_switch C E mid goal.object_id (some h) PoseStamped.init := by
    unfold executeCB
    rw [hs]
  rcases hid with hid | hid
  · refine ⟨h, mid, _, (find_upright_coke_can h PoseStamped.init).2, hs,
      hrun.trans (executeCB_switch_coke C E mid _ h _ hid), ?_, rfl, ?_⟩
    · rw [if_pos hid]
    · simp [State.newCalls, hcalls, hterm, Call.isTerminal]
  · refine ⟨h, mid, _, (find_toy_block E mid h PoseStamped.init).2.1, hs,
      hrun.trans (executeCB_switch_toy C E mid _ h _ hid), ?_, rfl, ?_⟩
    · rw [if_neg (by rw [hid]; exact fun h => hne h.symm)]
    · simp [State.newCalls, hcalls, hterm, Call.isTerminal]

/-- C1 at a concrete input: a toy-block goal with unknown surface height, the
cloud arriving at poll 2, budget 5. -/
theorem executeCB_known_object_succeeds_witness :
    ∃ (h : Scalar) (mid fin : State Nat) (pose : PoseStamped),
      executeCB_surface (demoExtern (some 2)) demoAffine 5 demoState ⟨2, false, 0⟩
        = Except.ok (some h, mid) ∧
      executeCB demoCodes (demoExtern (some 2)) demoAffine 5 demoState ⟨2, false, 0⟩
        = Except.ok fin ∧
      pose = (if (2 : Int) = demoCodes.COKE_CAN_UPRIGHT then
                (find_upright_coke_can h PoseStamped.init).2
              else (find_toy_block (demoExtern (some 2)) mid h PoseStamped.init).2.1) ∧
      fin.result_ = ⟨demoCodes.OBJECT_FOUND, pose⟩ ∧
      (State.newCalls demoState fin).filter Call.isTerminal
        = [Call.setSucceeded ⟨demoCodes.OBJECT_FOUND, pose⟩] :=
  executeCB_known_object_succeeds demoCodes (demoExtern (some 2)) demoAffine 5 2 demoState
    ⟨2, false, 0⟩ (Or.inr rfl)
    ⟨fun m hm => by
        have hm2 : m < 2 := hm
        simp only [demoExtern, demoState]
        interval_cases m <;> simp, by simp [demoExtern, demoState]⟩
    (by decide)

/-- C2, refuted as stated: with a goal of unrecognised object_id 99 and a
library whose cloud never arrives, executeCB never finishes the goal, whatever
the budget of the snapshot loop: no result code is set and nothing is aborted. -/
theorem executeCB_unknown_id_may_not_finish :
    (99 : Int) ≠ demoCodes.COKE_CAN_UPRIGHT ∧ (99 : Int) ≠ demoCodes.TOY_BLOCK ∧
    (∀ fuel, executeCB demoCodes (demoExtern none) demoAffine fuel demoState ⟨99, true, 0.8⟩
        = Except.error Fault.no_snapshot) ∧
    ¬ ∃ fuel fin, executeCB demoCodes (demoExtern none) demoAffine fuel demoState ⟨99, true, 0.8⟩
        = Except.ok fin := by
  have hrun : ∀ fuel,
      executeCB demoCodes (demoExtern none) demoAffine fuel demoState ⟨99, true, 0.8⟩
        = Except.error Fault.no_snapshot := by
    intro fuel
    unfold executeCB executeCB_surface
    simp only []
    rw [wait_for_snapshot_never (demoExtern none) (fun _ => rfl)]
  refine ⟨by decide, by decide, hrun, ?_⟩
  rintro ⟨fuel, fin, h⟩
  rw [hrun fuel] at h
  exact absurd h (by simp)

/-- C2, amended: for a goal whose object_id is neither COKE_CAN_UPRIGHT nor
TOY_BLOCK, once the snapshot has arrived (at poll n, within the budget),
executeCB ends with found_object_code = OBJECT_CODE_NOT_RECOGNIZED, its only
goal-finishing call is setAborted with that result, it never calls
setSucceeded, and it calls neither detector. -/
theorem executeCB_unknown_id_aborts {σ : Type} (C : ActionCodes) (E : Extern σ)
    (A : Affine3f) (fuel n : Nat) (self : State σ) (goal : objectFinderGoal)
    (hcoke : goal.object_id ≠ C.COKE_CAN_UPRIGHT) (htoy : goal.object_id ≠ C.TOY_BLOCK)
    (hsnap : SnapshotAt E self.pclUtils_ n) (hfuel : n ≤ fuel) :
    ∃ fin : State σ,
      executeCB C E A fuel self goal = Except.ok fin ∧
      fin.result_.found_object_code = C.OBJECT_CODE_NOT_RECOGNIZED ∧
      (State.newCalls self fin).filter Call.isTerminal = [Call.setAborted fin.result_] ∧
      (∀ r, Call.setSucceeded r ∉ State.newCalls self fin) ∧
      (State.newCalls self fin).filter Call.isDetector = [] := by
  obtain ⟨h, mid, new, hs, -, hcalls, hterm, hdet⟩ :=
    executeCB_surface_calls E A fuel n self goal hsnap hfuel
  have hrun : executeCB C E A fuel self goal
      = executeCB_switch C E mid goal.object_id (some h) PoseStamped.init := by
    unfold executeCB
    rw [hs]
  refine ⟨_, hrun.trans (executeCB_switch_default C E mid _ _ _ hcoke htoy), rfl, ?_, ?_, ?_⟩
  · simp [State.newCalls, hcalls, hterm, Call.isTerminal]
  · intro r hmem
    have hnew : State.newCalls self ⟨⟨C.OBJECT_CODE_NOT_RECOGNIZED, mid.result_.object_pose⟩,
        mid.pclUtils_, mid.calls ++
          [Call.setAborted ⟨C.OBJECT_CODE_NOT_RECOGNIZED, mid.result_.object_pose⟩]⟩
        = new ++ [Call.setAborted ⟨C.OBJECT_CODE_NOT_RECOGNIZED, mid.result_.object_pose⟩] := by
      simp [State.newCalls, hcalls]
    rw [hnew] at hmem
    rcases List.mem_append.mp hmem with hmem | hmem
    · have : Call.setSucceeded r ∈ new.filter Call.isTerminal :=
        List.mem_filter.mpr ⟨hmem, rfl⟩
      rw [hterm] at this
      exact absurd this (List.not_mem_nil _)
    · simp at hmem
  · simp [State.newCalls, hcalls, hdet, Call.isDetector]

/-- C2 amended, at a concrete input: object_id 99, known surface height, the
cloud arriving at the first poll. -/
theorem executeCB_unknown_id_aborts_witness :
    ∃ fin : State Nat,
      executeCB demoCodes (demoExtern (some 0)) demoAffine 0 demoState ⟨99, true, 0.8⟩
        = Except.ok fin ∧
      fin.result_.found_object_code = demoCodes.OBJECT_CODE_NOT_RECOGNIZED ∧
      (State.newCalls demoState fin).filter Call.isTerminal = [Call.setAborted fin.result_] ∧
      (∀ r, Call.setSucceeded r ∉ State.newCalls demoState fin) ∧
      (State.newCalls demoState fin).filter Call.isDetector = [] :=
  executeCB_unknown_id_aborts demoCodes (demoExtern (some 0)) demoAffine 0 0 demoState
    ⟨99, true, 0.8⟩ (by decide) (by decide)
    ⟨fun m hm => absurd hm (Nat.not_lt_zero m), by simp [demoExtern, demoState]⟩
    (by decide)

end ObjectFinder
